import Mathlib

/-!
Verification of the notification store, reconciliation sweep and command
surface of a Steam-Workshop watcher bot.

The JavaScript source is embedded shallowly:

* A JSON object with string keys is an association list with unique keys,
  in insertion order (`lookupKey`, `setKey`, `eraseKey` mirror property
  read, property write and `delete`).
* The persisted document `notifications.json` is `StoreData`; every store
  operation in `src/modules/common.js` reads the whole document, mutates it
  in memory and writes it back only on the paths that call `saveData`.
  Each Lean store operation returns the pair (returned boolean, persisted
  document after the call); on paths that do not save, the persisted
  document is the unchanged input.
* JavaScript `undefined`/`null` for a timestamp is `Option.none`; the
  truthiness test `!lastUpdated` is `lastUpdated.getD 0 = 0`, since `0`,
  `null` and `undefined` are exactly the falsy values a timestamp can take.
* Machine numbers are `Nat` (epoch timestamps, `Date.now()` milliseconds);
  the one subtraction `Date.now() - lastUpdated` is computed in `Int`
  because it may be negative in JavaScript.
-/

/-- The `type` field of a tracked entry: `'addon-update'` or
`'collection-update'` in the source. -/
inductive NotifType where
  | addonUpdate
  | collectionUpdate
deriving DecidableEq, Repr

/-- One tracked subscription entry `{ type, id, lastUpdated? }` as stored in
`notifications.json`.  `lastUpdated = none` models an absent field (or a
stored `null`/`undefined`). -/
structure Notification where
  type : NotifType
  id : String
  lastUpdated : Option Nat
deriving DecidableEq, Repr

/-- A channel's value in the document: an array of entries. -/
abbrev ChannelNotifications := List Notification

/-- A guild's value in the document: channel id, then entry list. -/
abbrev GuildNotifications := List (String × ChannelNotifications)

/-- The whole persisted document: guild id, then guild object. -/
abbrev StoreData := List (String × GuildNotifications)

/-- Property read `obj[k]` on a JSON object: first binding wins. -/
def lookupKey {α : Type} : List (String × α) → String → Option α
  | [], _ => none
  | (k', v) :: rest, k => if k' = k then some v else lookupKey rest k

/-- Property write `obj[k] = v`: replaces the binding if present, else
appends it (JavaScript objects keep insertion order). -/
def setKey {α : Type} : List (String × α) → String → α → List (String × α)
  | [], k, v => [(k, v)]
  | (k', v') :: rest, k, v =>
    if k' = k then (k, v) :: rest else (k', v') :: setKey rest k v

/-- Property deletion `delete obj[k]`. -/
def eraseKey {α : Type} (l : List (String × α)) (k : String) : List (String × α) :=
  l.filter (fun p => !decide (p.1 = k))

/-- `entry.type === type && entry.id === id` from the store's predicates. -/
def entryMatches (t : NotifType) (i : String) (e : Notification) : Bool :=
  decide (e.type = t) && decide (e.id = i)

/-- `isNotification(guildId, channelId, type, id)` from
`src/modules/common.js`: true iff a matching entry exists in that channel. -/
def isNotification (data : StoreData) (g c : String) (t : NotifType) (i : String) : Bool :=
  match lookupKey data g with
  | none => false
  | some gd =>
    match lookupKey gd c with
    | none => false
    | some l => l.any (entryMatches t i)

/-- `addNotification(guildId, channelId, type, id)` from
`src/modules/common.js`.  Containers are created lazily; if a matching entry
already exists the function returns `false` without calling `saveData`, so
the persisted document is unchanged. -/
def addNotification (data : StoreData) (g c : String) (t : NotifType) (i : String) :
    Bool × StoreData :=
  let gd := (lookupKey data g).getD []
  let l := (lookupKey gd c).getD []
  if l.any (entryMatches t i) then
    (false, data)
  else
    (true, setKey data g (setKey gd c (l ++ [{ type := t, id := i, lastUpdated := none }])))

/-- `removeNotification(guildId, channelId, type, id)` from
`src/modules/common.js`, including its final
`initialLength === data[guildId]?.[channelId]?.length` comparison (which is
false, hence saves and returns `true`, whenever the channel key was pruned:
optional chaining then yields `undefined`). -/
def removeNotification (data : StoreData) (g c : String) (t : NotifType) (i : String) :
    Bool × StoreData :=
  match lookupKey data g with
  | none => (false, data)
  | some gd =>
    match lookupKey gd c with
    | none => (false, data)
    | some l =>
      let initialLength := l.length
      let newList := l.filter (fun e => !(entryMatches t i e))
      let gd1 := setKey gd c newList
      let gd2 := if newList.length = 0 then eraseKey gd1 c else gd1
      let data1 := if gd2.length = 0 then eraseKey data g else setKey data g gd2
      let finalLen : Option Nat :=
        match lookupKey data1 g with
        | none => none
        | some gd' => (lookupKey gd' c).map List.length
      if finalLen = some initialLength then (false, data) else (true, data1)

/-- `removeAllNotifications(guildId, channelId)` from
`src/modules/common.js`. -/
def removeAllNotifications (data : StoreData) (g c : String) : Bool × StoreData :=
  match lookupKey data g with
  | none => (false, data)
  | some gd =>
    match lookupKey gd c with
    | none => (false, data)
    | some _ =>
      let gd1 := eraseKey gd c
      let data1 := if gd1.length = 0 then eraseKey data g else setKey data g gd1
      (true, data1)

/-- `getGuildNotifications(guildId)`: `data[guildId] || {}`. -/
def getGuildNotifications (data : StoreData) (g : String) : GuildNotifications :=
  (lookupKey data g).getD []

/-- `getChannelNotifications(guildId, channelId)`:
`data[guildId]?.[channelId] || []`. -/
def getChannelNotifications (data : StoreData) (g c : String) : ChannelNotifications :=
  ((lookupKey data g).bind (fun gd => lookupKey gd c)).getD []

/-- The mutation `data[g][c].find(matches).lastUpdated = timestamp`: updates
the first matching entry, `none` when no entry matches. -/
def setLastUpdatedInList (t : NotifType) (i : String) (ts : Option Nat) :
    List Notification → Option (List Notification)
  | [] => none
  | e :: rest =>
    if entryMatches t i e then
      some ({ e with lastUpdated := ts } :: rest)
    else
      (setLastUpdatedInList t i ts rest).map (fun l => e :: l)

/-- `setNotificationLastUpdated(guildId, channelId, type, id, timestamp)`
from `src/modules/common.js`.  The timestamp argument is `Option Nat`
because the sweep passes the raw `data.time_updated`, which may be absent. -/
def setNotificationLastUpdated (data : StoreData) (g c : String) (t : NotifType)
    (i : String) (ts : Option Nat) : Bool × StoreData :=
  match lookupKey data g with
  | none => (false, data)
  | some gd =>
    match lookupKey gd c with
    | none => (false, data)
    | some l =>
      match setLastUpdatedInList t i ts l with
      | none => (false, data)
      | some l' => (true, setKey data g (setKey gd c l'))

/-- `getNotificationLastUpdated(guildId, channelId, type, id)` from
`src/modules/common.js`.  Returns `none` for a missing guild, channel or
entry (`null` in the source) and also when the found entry has no
`lastUpdated` field (`undefined` in the source); the sweep treats the two
identically. -/
def getNotificationLastUpdated (data : StoreData) (g c : String) (t : NotifType)
    (i : String) : Option Nat :=
  match lookupKey data g with
  | none => none
  | some gd =>
    match lookupKey gd c with
    | none => none
    | some l =>
      match l.find? (entryMatches t i) with
      | none => none
      | some e => e.lastUpdated

/-- The state of the backing file `data/notifications.json` as the store
code distinguishes it: absent, existing with size 0, existing with only
whitespace, unreadable or unparsable content, or a parsed document. -/
inductive RawDoc where
  | missing
  | sizeZero
  | blank
  | invalid
  | valid (d : StoreData)
deriving DecidableEq, Repr

/-- `ensureDataFile()` from `src/modules/common.js`: creates the file with
`JSON.stringify({})` when it is absent or has size 0. -/
def ensureDataFile : RawDoc → RawDoc
  | RawDoc.missing => RawDoc.valid []
  | RawDoc.sizeZero => RawDoc.valid []
  | r => r

/-- `readData()` from `src/modules/common.js`: ensures the file exists, then
returns the parsed document; whitespace-only content and any read/parse
failure (the `catch` branch) yield `{}` and rewrite the file to `{}`.
The result pairs the document handed to the caller with the file state
after the call; no branch throws to the caller. -/
def readData : RawDoc → StoreData × RawDoc :=
  fun r =>
    match ensureDataFile r with
    | RawDoc.blank => ([], RawDoc.valid [])
    | RawDoc.invalid => ([], RawDoc.valid [])
    | RawDoc.valid d => (d, RawDoc.valid d)
    | r' => ([], r')

/-- `isNotification` lifted to the backing file: read (possibly healing the
file), then query; never writes beyond the healing done by `readData`. -/
def fileIsNotification (r : RawDoc) (g c : String) (t : NotifType) (i : String) :
    Bool × RawDoc :=
  let rd := readData r
  (isNotification rd.1 g c t i, rd.2)

/-- `addNotification` lifted to the backing file: read, mutate, and
`saveData` (overwrite the file with the new document) exactly when the
in-memory operation reports success. -/
def fileAddNotification (r : RawDoc) (g c : String) (t : NotifType) (i : String) :
    Bool × RawDoc :=
  let rd := readData r
  let a := addNotification rd.1 g c t i
  if a.1 then (a.1, RawDoc.valid a.2) else (a.1, rd.2)

/-- `getChannelNotifications` lifted to the backing file. -/
def fileGetChannelNotifications (r : RawDoc) (g c : String) :
    ChannelNotifications × RawDoc :=
  let rd := readData r
  (getChannelNotifications rd.1 g c, rd.2)

/-- The fields of a fetched workshop item that the sweep's state machine
reads.  `getWorkshopAddonData` returns the raw Steam
`publishedfiledetails[0]` object; of it the reconciliation logic only uses
`time_updated` (which the API may omit, hence `Option`).  The remaining
fields (title, creator, sizes, ...) only feed the rendered message. -/
structure AddonData where
  time_updated : Option Nat
deriving DecidableEq, Repr

/-- Observable actions of one per-item step of the sweep, in program
order. -/
inductive SweepEvent where
  | setBaseline (ts : Option Nat)
  | emitAttempt (ok : Bool)
  | warnNoData
deriving DecidableEq, Repr

/-- One per-item step of the `setInterval` sweep in `src/index.js`
(`ClientReady` handler, sequential variant): given the persisted document,
the item's coordinates, the fetch outcome (`none` models a failed or
not-found fetch, i.e. `getWorkshopAddonData` returning `false`) and
`Date.now()` in milliseconds, it returns the persisted document after the
step and the ordered list of observable actions.

* `!lastUpdated` in the source is `lastUpdated.getD 0 = 0` (absent, `null`
  and `0` are the falsy timestamps); that branch seeds the baseline with
  the raw `data.time_updated` and sends nothing.
* Otherwise the announcement condition is
  `addonUpdateTime > lastUpdated && addonUpdateTime > 0 &&
  Date.now() - lastUpdated >= 300000`, with
  `addonUpdateTime = data.time_updated || 0` and the subtraction over
  `Int` (in the source `lastUpdated` holds the remote epoch timestamp in
  seconds while `Date.now()` is in milliseconds; the code subtracts them
  anyway).  On announcement `setNotificationLastUpdated` runs first, then
  the channel send is attempted inside `try`/`catch`; `emitterOk` is
  whether that send succeeds, and it affects nothing but the log. -/
def processItem (data : StoreData) (g c : String) (t : NotifType) (i : String)
    (fetched : Option AddonData) (now : Nat) (emitterOk : Bool) :
    StoreData × List SweepEvent :=
  let lastUpdated := getNotificationLastUpdated data g c t i
  match fetched with
  | none => (data, [SweepEvent.warnNoData])
  | some ad =>
    if lastUpdated.getD 0 = 0 then
      let r := setNotificationLastUpdated data g c t i ad.time_updated
      (r.2, [SweepEvent.setBaseline ad.time_updated])
    else
      let lu := lastUpdated.getD 0
      let addonUpdateTime := ad.time_updated.getD 0
      let timeDifference : Int := (now : Int) - (lu : Int)
      if lu < addonUpdateTime ∧ 0 < addonUpdateTime ∧ (300000 : Int) ≤ timeDifference then
        let r := setNotificationLastUpdated data g c t i ad.time_updated
        (r.2, [SweepEvent.setBaseline ad.time_updated, SweepEvent.emitAttempt emitterOk])
      else
        (data, [])

/-- Observable actions of one command invocation, in program order.  A
`storeRead` is a store query (`getChannelNotifications`/`isNotification`), a
`storeMutation` a store write (`addNotification`/`removeNotification`/
`removeAllNotifications`), a `fetcherCall` a request to the Steam API, a
`rejectMessage` a `sendErrorMessage` to the invoking user. -/
inductive CmdEvent where
  | fetcherCall
  | storeRead
  | confirmPrompt
  | storeMutation
  | rejectMessage (msg : String)
  | successReply
deriving DecidableEq, Repr

/-- The `error_count`/`error_message` accumulator pattern shared by every
command handler: a failed check increments the count and overwrites the
message. -/
def addErr (acc : Nat × String) (cond : Bool) (msg : String) : Nat × String :=
  if cond then (acc.1 + 1, msg) else acc

/-- JavaScript truthiness of the `id` option value: `null`/absent and the
empty string are falsy. -/
def isTruthyStr : Option String → Bool
  | none => false
  | some s => !s.data.isEmpty

/-- The test `/^\d+$/.test(id)`: one or more digits and nothing else. -/
def digitsOnly (s : String) : Bool :=
  !s.data.isEmpty && s.data.all Char.isDigit

/-- `channelNotifications.filter(n => n.type === t).length` for one
channel. -/
def channelCount (s : StoreData) (g c : String) (t : NotifType) : Nat :=
  (getChannelNotifications s g c).countP (fun e => decide (e.type = t))

/-- Inputs of one `add-addon-update` or `add-collection-update` invocation
that the handler branches on: the invoker's permission, the raw `id`
option, the outcome of the Steam API calls (`fetchOk` is `response.ok`,
`fetchValid` the payload checks; the `coll*` pair is the second,
collection-details request made only by `add-collection-update`), the
target guild/channel, and the result of the confirmation dialogue. -/
structure AddCmdArgs where
  hasPermission : Bool
  id : Option String
  fetchOk : Bool
  fetchValid : Bool
  collFetchOk : Bool
  collFetchValid : Bool
  guildId : String
  channelId : String
  confirmed : Bool
deriving Repr

/-- The check sequence of `execute` in `src/commands/add-addon-update.js`,
in source order: permission, the three id validations, the two
fetch-response checks, then the per-channel capacity check against limit
5. -/
def addAddonChecks (a : AddCmdArgs) (s : StoreData) : Nat × String :=
  let e0 := addErr (0, "") (!a.hasPermission)
    "You must have Administrator permissions or be the Server Owner to use this command."
  let e1 := addErr e0 (!isTruthyStr a.id)
    "The ID of the Steam Workshop Addon is required."
  let e2 := addErr e1 (isTruthyStr a.id &&
      (decide ((a.id.getD "").length < 1) || decide (20 < (a.id.getD "").length)))
    "The ID must be between 1 and 20 characters long."
  let e3 := addErr e2 (isTruthyStr a.id && !digitsOnly (a.id.getD ""))
    "The ID must be a valid numeric Steam Workshop ID."
  let e4 := addErr e3 (!a.fetchOk)
    "Failed to fetch data from the Steam API."
  let e5 := addErr e4 (!a.fetchValid)
    "No details found for the provided ID or the ID is invalid."
  addErr e5 (decide (5 ≤ channelCount s a.guildId a.channelId NotifType.addonUpdate))
    "This channel already has the maximum number of addon updater notifications (5). Please remove an existing notification before adding a new one."

/-- `execute` of `src/commands/add-addon-update.js`: the checks run first
(the Steam fetch and the capacity read happen unconditionally, before the
error decision), then on a clean run the confirmation dialogue, a duplicate
re-check via `isNotification`, and `addNotification`; on any error the
handler only sends the last error message.  Returns the event trace and the
persisted document after the invocation. -/
def executeAddAddon (a : AddCmdArgs) (s : StoreData) : List CmdEvent × StoreData :=
  let e := addAddonChecks a s
  let pre := [CmdEvent.fetcherCall, CmdEvent.storeRead]
  if e.1 = 0 then
    if a.confirmed then
      if isNotification s a.guildId a.channelId NotifType.addonUpdate (a.id.getD "") then
        (pre ++ [CmdEvent.confirmPrompt, CmdEvent.storeRead, CmdEvent.rejectMessage
          "An addon update notification for this ID already exists in this channel."], s)
      else
        let r := addNotification s a.guildId a.channelId NotifType.addonUpdate (a.id.getD "")
        (pre ++ [CmdEvent.confirmPrompt, CmdEvent.storeRead, CmdEvent.storeMutation,
          CmdEvent.successReply], r.2)
    else
      (pre ++ [CmdEvent.confirmPrompt], s)
  else
    (pre ++ [CmdEvent.rejectMessage e.2], s)

/-- The check sequence of `execute` in the `add-collection-update` handler:
permission, the three id validations, the two checks of each of the two
Steam requests, then the capacity check against limit 3. -/
def addCollectionChecks (a : AddCmdArgs) (s : StoreData) : Nat × String :=
  let e0 := addErr (0, "") (!a.hasPermission)
    "You must have Administrator permissions or be the Server Owner to use this command."
  let e1 := addErr e0 (!isTruthyStr a.id)
    "The ID of the Steam Workshop Collection is required."
  let e2 := addErr e1 (isTruthyStr a.id &&
      (decide ((a.id.getD "").length < 1) || decide (20 < (a.id.getD "").length)))
    "The ID must be between 1 and 20 characters long."
  let e3 := addErr e2 (isTruthyStr a.id && !digitsOnly (a.id.getD ""))
    "The ID must be a valid numeric Steam Workshop ID."
  let e4 := addErr e3 (!a.fetchOk)
    "Failed to fetch data from the Steam API."
  let e5 := addErr e4 (!a.fetchValid)
    "No details found for the provided ID or the ID is invalid."
  let e6 := addErr e5 (!a.collFetchOk)
    "Failed to fetch data from the Steam API."
  let e7 := addErr e6 (!a.collFetchValid)
    "No details found for the provided ID or the ID is invalid. (Keep in mind collections must be public)"
  addErr e7 (decide (3 ≤ channelCount s a.guildId a.channelId NotifType.collectionUpdate))
    "This channel already has the maximum number of collection updater notifications (3). Please remove an existing notification before adding a new one."

/-- `execute` of the `add-collection-update` handler; same shape as
`executeAddAddon` with two Steam requests, limit 3 and type
`collection-update`. -/
def executeAddCollection (a : AddCmdArgs) (s : StoreData) : List CmdEvent × StoreData :=
  let e := addCollectionChecks a s
  let pre := [CmdEvent.fetcherCall, CmdEvent.fetcherCall, CmdEvent.storeRead]
  if e.1 = 0 then
    if a.confirmed then
      if isNotification s a.guildId a.channelId NotifType.collectionUpdate (a.id.getD "") then
        (pre ++ [CmdEvent.confirmPrompt, CmdEvent.storeRead, CmdEvent.rejectMessage
          "An collection update notification for this ID already exists in this channel."], s)
      else
        let r := addNotification s a.guildId a.channelId NotifType.collectionUpdate (a.id.getD "")
        (pre ++ [CmdEvent.confirmPrompt, CmdEvent.storeRead, CmdEvent.storeMutation,
          CmdEvent.successReply], r.2)
    else
      (pre ++ [CmdEvent.confirmPrompt], s)
  else
    (pre ++ [CmdEvent.rejectMessage e.2], s)

/-- Inputs of a `remove-addon-update`, `remove-collection-update` or
`remove-all-update` invocation. -/
structure RemoveCmdArgs where
  hasPermission : Bool
  id : Option String
  guildId : String
  channelId : String
deriving Repr

/-- The check sequence of the `remove-addon-update` and
`remove-collection-update` handlers: permission, the three id validations,
then an existence check via `isNotification`. -/
def removeChecks (t : NotifType) (a : RemoveCmdArgs) (s : StoreData) : Nat × String :=
  let e0 := addErr (0, "") (!a.hasPermission)
    "You must have Administrator permissions or be the Server Owner to use this command."
  let e1 := addErr e0 (!isTruthyStr a.id)
    "The ID of the Steam Workshop item is required."
  let e2 := addErr e1 (isTruthyStr a.id &&
      (decide ((a.id.getD "").length < 1) || decide (20 < (a.id.getD "").length)))
    "The ID must be between 1 and 20 characters long."
  let e3 := addErr e2 (isTruthyStr a.id && !digitsOnly (a.id.getD ""))
    "The ID must be a valid numeric Steam Workshop ID."
  addErr e3 (!isNotification s a.guildId a.channelId t (a.id.getD ""))
    "No automatic updater notification found for this ID in this channel."

/-- `execute` of the two removal handlers: on a clean run it calls
`removeNotification`, otherwise it only reports the last error. -/
def executeRemoveUpdate (t : NotifType) (a : RemoveCmdArgs) (s : StoreData) :
    List CmdEvent × StoreData :=
  let e := removeChecks t a s
  if e.1 = 0 then
    let r := removeNotification s a.guildId a.channelId t (a.id.getD "")
    ([CmdEvent.storeRead, CmdEvent.storeMutation, CmdEvent.successReply], r.2)
  else
    ([CmdEvent.storeRead, CmdEvent.rejectMessage e.2], s)

/-- `execute` of `src/commands/remove-all-update.js`: permission check, then
the handler requires at least one addon-update AND at least one
collection-update entry in the channel (the source tests
`addon count < 1 || collection count < 1`); on a clean run it calls
`removeAllNotifications`. -/
def executeRemoveAllUpdate (a : RemoveCmdArgs) (s : StoreData) :
    List CmdEvent × StoreData :=
  let e0 := addErr (0, "") (!a.hasPermission)
    "You must have Administrator permissions or be the Server Owner to use this command."
  let e := addErr e0 (decide (channelCount s a.guildId a.channelId NotifType.addonUpdate < 1) ||
      decide (channelCount s a.guildId a.channelId NotifType.collectionUpdate < 1))
    "There are no automatic updater notifications in this channel to remove."
  if e.1 = 0 then
    let r := removeAllNotifications s a.guildId a.channelId
    ([CmdEvent.storeRead, CmdEvent.storeMutation, CmdEvent.successReply], r.2)
  else
    ([CmdEvent.storeRead, CmdEvent.rejectMessage e.2], s)

/-- Store states reachable from the empty document through the command
surface (the five mutating slash commands), one invocation at a time. -/
inductive Reachable : StoreData → Prop where
  | empty : Reachable []
  | stepAddAddon (s : StoreData) (a : AddCmdArgs) (h : Reachable s) :
      Reachable (executeAddAddon a s).2
  | stepAddCollection (s : StoreData) (a : AddCmdArgs) (h : Reachable s) :
      Reachable (executeAddCollection a s).2
  | stepRemove (s : StoreData) (t : NotifType) (a : RemoveCmdArgs) (h : Reachable s) :
      Reachable (executeRemoveUpdate t a s).2
  | stepRemoveAll (s : StoreData) (a : RemoveCmdArgs) (h : Reachable s) :
      Reachable (executeRemoveAllUpdate a s).2

/-- The per-channel capacity invariant of the data model: at most 5
addon-update and at most 3 collection-update entries per channel. -/
def CapacityOK (s : StoreData) : Prop :=
  ∀ g c, channelCount s g c NotifType.addonUpdate ≤ 5 ∧
    channelCount s g c NotifType.collectionUpdate ≤ 3

/-- The identifier validation shared by the command handlers, as one
predicate: present, nonempty, at most 20 characters, digits only.  A
command input fails identifier validation exactly when `idValid` is
`false`. -/
def idValid : Option String → Bool
  | none => false
  | some s => !s.data.isEmpty && decide (s.length ≤ 20) && digitsOnly s

theorem lookupKey_setKey_self {α : Type} (l : List (String × α)) (k : String) (v : α) :
    lookupKey (setKey l k v) k = some v := by
  induction l with
  | nil => simp [setKey, lookupKey]
  | cons p rest ih =>
    obtain ⟨k', v'⟩ := p
    by_cases h : k' = k
    · simp [setKey, lookupKey, h]
    · simp [setKey, lookupKey, h, ih]

theorem lookupKey_setKey_ne {α : Type} (l : List (String × α)) (k k' : String) (v : α)
    (h : k' ≠ k) : lookupKey (setKey l k v) k' = lookupKey l k' := by
  induction l with
  | nil => simp [setKey, lookupKey, Ne.symm h]
  | cons p rest ih =>
    obtain ⟨k'', v'⟩ := p
    by_cases hk : k'' = k
    · subst hk
      simp [setKey, lookupKey, Ne.symm h]
    · simp [setKey, lookupKey, hk, ih]

theorem lookupKey_eraseKey_self {α : Type} (l : List (String × α)) (k : String) :
    lookupKey (eraseKey l k) k = none := by
  induction l with
  | nil => simp [eraseKey, lookupKey]
  | cons p rest ih =>
    obtain ⟨k', v'⟩ := p
    simp only [eraseKey, List.filter_cons] at ih ⊢
    by_cases h : k' = k
    · simpa [h] using ih
    · simpa [h, lookupKey, Ne.symm h] using ih

theorem lookupKey_eraseKey_ne {α : Type} (l : List (String × α)) (k k' : String)
    (h : k' ≠ k) : lookupKey (eraseKey l k) k' = lookupKey l k' := by
  induction l with
  | nil => simp [eraseKey, lookupKey]
  | cons p rest ih =>
    obtain ⟨k'', v'⟩ := p
    simp only [eraseKey, List.filter_cons] at ih ⊢
    by_cases hk : k'' = k
    · subst hk
      simp only [lookupKey]
      simpa [Ne.symm h] using ih
    · simp [hk, lookupKey, ih]

theorem eraseKey_setKey {α : Type} (l : List (String × α)) (k : String) (v : α) :
    eraseKey (setKey l k v) k = eraseKey l k := by
  induction l with
  | nil => simp [setKey, eraseKey, List.filter_cons]
  | cons p rest ih =>
    obtain ⟨k', v'⟩ := p
    by_cases h : k' = k
    · subst h
      simp [setKey, eraseKey, List.filter_cons]
    · simp only [setKey, eraseKey, List.filter_cons] at ih ⊢
      simp [h, ih]

theorem setKey_ne_nil {α : Type} (l : List (String × α)) (k : String) (v : α) :
    setKey l k v ≠ [] := by
  cases l with
  | nil => simp [setKey]
  | cons p rest =>
    obtain ⟨k', v'⟩ := p
    by_cases h : k' = k <;> simp [setKey, h]

theorem getChannelNotifications_eq (data : StoreData) (g c : String) :
    getChannelNotifications data g c
      = (lookupKey ((lookupKey data g).getD []) c).getD [] := by
  unfold getChannelNotifications
  cases h : lookupKey data g with
  | none => simp [lookupKey]
  | some gd => simp

theorem getChannelNotifications_setKey_self (data : StoreData) (g c : String)
    (gd : GuildNotifications) :
    getChannelNotifications (setKey data g gd) g c = (lookupKey gd c).getD [] := by
  unfold getChannelNotifications
  rw [lookupKey_setKey_self]
  rfl

theorem entryMatches_setTs (t : NotifType) (i : String) (ts : Option Nat) (e : Notification) :
    entryMatches t i { e with lastUpdated := ts } = entryMatches t i e := rfl

theorem find?_of_any {l : List Notification} {p : Notification → Bool}
    (h : l.any p = true) : ∃ e, l.find? p = some e := by
  induction l with
  | nil => simp at h
  | cons a rest ih =>
    by_cases ha : p a
    · exact ⟨a, by simp [List.find?_cons_of_pos, ha]⟩
    · simp only [List.any_cons, ha, Bool.false_or] at h
      obtain ⟨e, he⟩ := ih h
      exact ⟨e, by simp [List.find?_cons_of_neg, ha, he]⟩

theorem any_of_find? {l : List Notification} {p : Notification → Bool} {e : Notification}
    (h : l.find? p = some e) : l.any p = true := by
  have hm := List.mem_of_find?_eq_some h
  have hp := List.find?_some h
  exact List.any_eq_true.mpr ⟨e, hm, hp⟩

theorem setLastUpdatedInList_spec (t : NotifType) (i : String) (ts : Option Nat) :
    ∀ (l : List Notification) (e : Notification), l.find? (entryMatches t i) = some e →
    ∃ l', setLastUpdatedInList t i ts l = some l'
      ∧ l'.find? (entryMatches t i) = some { e with lastUpdated := ts } := by
  intro l
  induction l with
  | nil =>
    intro e h
    simp [List.find?] at h
  | cons a rest ih =>
    intro e h
    by_cases ha : entryMatches t i a
    · have hea : e = a := by
        rw [List.find?_cons_of_pos _ ha] at h
        exact (Option.some.injEq _ _ ▸ h :).symm
      subst hea
      refine ⟨{ e with lastUpdated := ts } :: rest, ?_, ?_⟩
      · simp [setLastUpdatedInList, ha]
      · have hm : entryMatches t i { e with lastUpdated := ts } = true := by
          rw [entryMatches_setTs]; exact ha
      
        simp [List.find?_cons_of_pos _ hm]
    · rw [List.find?_cons_of_neg _ ha] at h
      obtain ⟨l', hl', hf⟩ := ih e h
      refine ⟨a :: l', ?_, ?_⟩
      · simp [setLastUpdatedInList, ha, hl']
      · simp [List.find?_cons_of_neg _ ha, hf]

theorem setNotificationLastUpdated_spec (data : StoreData) (g c : String) (t : NotifType)
    (i : String) (ts : Option Nat) (h : isNotification data g c t i = true) :
    (setNotificationLastUpdated data g c t i ts).1 = true
    ∧ getNotificationLastUpdated (setNotificationLastUpdated data g c t i ts).2 g c t i = ts
    ∧ isNotification (setNotificationLastUpdated data g c t i ts).2 g c t i = true := by
  cases hg : lookupKey data g with
  | none => simp [isNotification, hg] at h
  | some gd =>
    cases hc : lookupKey gd c with
    | none => simp [isNotification, hg, hc] at h
    | some l =>
      have hany : l.any (entryMatches t i) = true := by
        simpa [isNotification, hg, hc] using h
      obtain ⟨e, he⟩ := find?_of_any hany
      obtain ⟨l', hl', hf⟩ := setLastUpdatedInList_spec t i ts l e he
      simp only [setNotificationLastUpdated, hg, hc, hl']
      refine ⟨trivial, ?_, ?_⟩
      · simp only [getNotificationLastUpdated, lookupKey_setKey_self, hf]
      · simp only [isNotification, lookupKey_setKey_self]
        exact any_of_find? hf

theorem isNotification_of_getLast {data : StoreData} {g c : String} {t : NotifType}
    {i : String} {T : Nat} (h : getNotificationLastUpdated data g c t i = some T) :
    isNotification data g c t i = true := by
  cases hg : lookupKey data g with
  | none => simp [getNotificationLastUpdated, hg] at h
  | some gd =>
    cases hc : lookupKey gd c with
    | none => simp [getNotificationLastUpdated, hg, hc] at h
    | some l =>
      cases hf : l.find? (entryMatches t i) with
      | none => simp [getNotificationLastUpdated, hg, hc, hf] at h
      | some e =>
        simp only [isNotification, hg, hc]
        exact any_of_find? hf

theorem countP_filter_le {α : Type} (l : List α) (p q : α → Bool) :
    (l.filter q).countP p ≤ l.countP p := by
  induction l with
  | nil => simp
  | cons a rest ih =>
    by_cases hq : q a <;> by_cases hp : p a <;>
      simp [List.filter_cons, List.countP_cons, hq, hp] <;> omega

theorem addErr_zero {acc : Nat × String} {cond : Bool} {msg : String}
    (h : (addErr acc cond msg).1 = 0) : acc.1 = 0 ∧ cond = false := by
  by_cases hc : cond
  · simp [addErr, hc] at h
  · simpa [addErr, hc] using h

theorem addErr_pos {acc : Nat × String} {cond : Bool} {msg : String}
    (h : cond = true) : (addErr acc cond msg).1 ≠ 0 := by
  simp [addErr, h]

theorem addErr_carry {acc : Nat × String} {cond : Bool} {msg : String}
    (h : acc.1 ≠ 0) : (addErr acc cond msg).1 ≠ 0 := by
  by_cases hc : cond <;> simp [addErr, hc, h]

theorem addErr_msg {acc : Nat × String} {cond : Bool} {msg : String}
    (hmsg : msg ≠ "") (hacc : acc.1 ≠ 0 → acc.2 ≠ "") :
    (addErr acc cond msg).1 ≠ 0 → (addErr acc cond msg).2 ≠ "" := by
  by_cases hc : cond
  · intro _
    simpa [addErr, hc] using hmsg
  · intro h
    have h' : acc.1 ≠ 0 := by simpa [addErr, hc] using h
    simpa [addErr, hc] using hacc h'

theorem getChannelNotifications_setKey_ne_g (s : StoreData) (g g' c' : String)
    (gd : GuildNotifications) (h : g' ≠ g) :
    getChannelNotifications (setKey s g gd) g' c' = getChannelNotifications s g' c' := by
  simp [getChannelNotifications, lookupKey_setKey_ne _ _ _ _ h]

theorem getChannelNotifications_eraseKey_self_g (s : StoreData) (g c' : String) :
    getChannelNotifications (eraseKey s g) g c' = [] := by
  simp [getChannelNotifications, lookupKey_eraseKey_self]

theorem getChannelNotifications_eraseKey_ne_g (s : StoreData) (g g' c' : String)
    (h : g' ≠ g) :
    getChannelNotifications (eraseKey s g) g' c' = getChannelNotifications s g' c' := by
  simp [getChannelNotifications, lookupKey_eraseKey_ne _ _ _ h]

theorem addNotification_channel_other (s : StoreData) (g c g' c' : String)
    (t : NotifType) (i : String) (h : g' ≠ g ∨ c' ≠ c) :
    getChannelNotifications (addNotification s g c t i).2 g' c'
      = getChannelNotifications s g' c' := by
  cases hdup : (((lookupKey ((lookupKey s g).getD []) c).getD []).any (entryMatches t i)) with
  | true => simp [addNotification, hdup]
  | false =>
    have hstore : (addNotification s g c t i).2
        = setKey s g (setKey ((lookupKey s g).getD []) c
            (((lookupKey ((lookupKey s g).getD []) c).getD [])
              ++ [{ type := t, id := i, lastUpdated := none }])) := by
      simp [addNotification, hdup]
    rw [hstore]
    rcases h with h | h
    · rw [getChannelNotifications_setKey_ne_g _ _ _ _ _ h]
    · by_cases hg : g' = g
      · subst hg
        rw [getChannelNotifications_setKey_self, lookupKey_setKey_ne _ _ _ _ h,
          ← getChannelNotifications_eq]
      · rw [getChannelNotifications_setKey_ne_g _ _ _ _ _ hg]

theorem addNotification_channel_self (s : StoreData) (g c : String) (t : NotifType)
    (i : String) (h : (getChannelNotifications s g c).any (entryMatches t i) = false) :
    getChannelNotifications (addNotification s g c t i).2 g c
      = getChannelNotifications s g c ++ [{ type := t, id := i, lastUpdated := none }] := by
  have hdup : (((lookupKey ((lookupKey s g).getD []) c).getD []).any (entryMatches t i)) = false := by
    rw [← getChannelNotifications_eq]
    exact h
  have hstore : (addNotification s g c t i).2
      = setKey s g (setKey ((lookupKey s g).getD []) c
          (((lookupKey ((lookupKey s g).getD []) c).getD [])
            ++ [{ type := t, id := i, lastUpdated := none }])) := by
    simp [addNotification, hdup]
  rw [hstore, getChannelNotifications_setKey_self, lookupKey_setKey_self,
    getChannelNotifications_eq]
  simp

theorem removeNotification_eq_of_empty {s : StoreData} {g c : String} {t : NotifType}
    {i : String} {gd : GuildNotifications} {l : List Notification}
    (hg : lookupKey s g = some gd) (hc : lookupKey gd c = some l)
    (hempty : l.filter (fun e => !(entryMatches t i e)) = []) :
    removeNotification s g c t i
      = (true, if (eraseKey gd c).length = 0 then eraseKey s g
          else setKey s g (eraseKey gd c)) := by
  simp only [removeNotification, hg, hc, hempty, eraseKey_setKey, List.length_nil,
    if_pos rfl]
  by_cases hzero : (eraseKey gd c).length = 0
  · simp [hzero, lookupKey_eraseKey_self]
  · simp [hzero, lookupKey_setKey_self, lookupKey_eraseKey_self]

theorem removeNotification_eq_of_nonempty {s : StoreData} {g c : String} {t : NotifType}
    {i : String} {gd : GuildNotifications} {l : List Notification}
    (hg : lookupKey s g = some gd) (hc : lookupKey gd c = some l)
    (hne : l.filter (fun e => !(entryMatches t i e)) ≠ []) :
    removeNotification s g c t i
      = if (l.filter (fun e => !(entryMatches t i e))).length = l.length
        then (false, s)
        else (true, setKey s g (setKey gd c (l.filter (fun e => !(entryMatches t i e))))) := by
  have hlen : (l.filter (fun e => !(entryMatches t i e))).length ≠ 0 := by
    simpa [List.length_eq_zero] using hne
  have hsklen : (setKey gd c (l.filter (fun e => !(entryMatches t i e)))).length ≠ 0 := by
    simpa [List.length_eq_zero] using setKey_ne_nil gd c (l.filter (fun e => !(entryMatches t i e)))
  simp only [removeNotification, hg, hc]
  rw [if_neg hlen, if_neg hsklen]
  simp only [lookupKey_setKey_self, Option.map_some', Option.some.injEq]

theorem removeNotification_count_le (s : StoreData) (g c : String) (t : NotifType)
    (i : String) (g' c' : String) (p : Notification → Bool) :
    ((getChannelNotifications (removeNotification s g c t i).2 g' c').countP p)
      ≤ (getChannelNotifications s g' c').countP p := by
  cases hg : lookupKey s g with
  | none => simp [removeNotification, hg]
  | some gd =>
    cases hc : lookupKey gd c with
    | none => simp [removeNotification, hg, hc]
    | some l =>
      by_cases hempty : l.filter (fun e => !(entryMatches t i e)) = []
      · rw [removeNotification_eq_of_empty hg hc hempty]
        by_cases hzero : (eraseKey gd c).length = 0
        · rw [if_pos hzero]
          by_cases hg' : g' = g
          · subst hg'
            rw [getChannelNotifications_eraseKey_self_g]
            simp
          · rw [getChannelNotifications_eraseKey_ne_g _ _ _ _ hg']
        · rw [if_neg hzero]
          by_cases hg' : g' = g
          · subst hg'
            rw [getChannelNotifications_setKey_self]
            by_cases hc' : c' = c
            · subst hc'
              rw [lookupKey_eraseKey_self]
              simp
            · rw [lookupKey_eraseKey_ne _ _ _ hc']
              have hrhs : getChannelNotifications s g' c' = (lookupKey gd c').getD [] := by
                simp [getChannelNotifications, hg]
              rw [hrhs]
          · rw [getChannelNotifications_setKey_ne_g _ _ _ _ _ hg']
      · rw [removeNotification_eq_of_nonempty hg hc hempty]
        by_cases heq : (l.filter (fun e => !(entryMatches t i e))).length = l.length
        · rw [if_pos heq]
        · rw [if_neg heq]
          by_cases hg' : g' = g
          · subst hg'
            rw [getChannelNotifications_setKey_self]
            by_cases hc' : c' = c
            · subst hc'
              rw [lookupKey_setKey_self]
              have hchan : getChannelNotifications s g' c' = l := by
                simp [getChannelNotifications, hg, hc]
              rw [hchan]
              simpa using countP_filter_le l p _
            · rw [lookupKey_setKey_ne _ _ _ _ hc']
              have hrhs : getChannelNotifications s g' c' = (lookupKey gd c').getD [] := by
                simp [getChannelNotifications, hg]
              rw [hrhs]
          · rw [getChannelNotifications_setKey_ne_g _ _ _ _ _ hg']

theorem removeAllNotifications_count_le (s : StoreData) (g c : String)
    (g' c' : String) (p : Notification → Bool) :
    ((getChannelNotifications (removeAllNotifications s g c).2 g' c').countP p)
      ≤ (getChannelNotifications s g' c').countP p := by
  cases hg : lookupKey s g with
  | none => simp [removeAllNotifications, hg]
  | some gd =>
    cases hc : lookupKey gd c with
    | none => simp [removeAllNotifications, hg, hc]
    | some l =>
      simp only [removeAllNotifications, hg, hc]
      by_cases hzero : (eraseKey gd c).length = 0
      · rw [if_pos hzero]
        by_cases hg' : g' = g
        · subst hg'
          rw [getChannelNotifications_eraseKey_self_g]
          simp
        · rw [getChannelNotifications_eraseKey_ne_g _ _ _ _ hg']
      · rw [if_neg hzero]
        by_cases hg' : g' = g
        · subst hg'
          rw [getChannelNotifications_setKey_self]
          by_cases hc' : c' = c
          · subst hc'
            rw [lookupKey_eraseKey_self]
            simp
          · rw [lookupKey_eraseKey_ne _ _ _ hc']
            have hrhs : getChannelNotifications s g' c' = (lookupKey gd c').getD [] := by
              simp [getChannelNotifications, hg]
            rw [hrhs]
        · rw [getChannelNotifications_setKey_ne_g _ _ _ _ _ hg']

theorem channelCount_addNotification_other (s : StoreData) (g c g' c' : String)
    (t t' : NotifType) (i : String) (h : g' ≠ g ∨ c' ≠ c) :
    channelCount (addNotification s g c t i).2 g' c' t' = channelCount s g' c' t' := by
  unfold channelCount
  rw [addNotification_channel_other _ _ _ _ _ _ _ h]

theorem addNotification_of_dup (s : StoreData) (g c : String) (t : NotifType) (i : String)
    (hdup : (getChannelNotifications s g c).any (entryMatches t i) = true) :
    addNotification s g c t i = (false, s) := by
  have hdup' : (((lookupKey ((lookupKey s g).getD []) c).getD []).any (entryMatches t i)) = true := by
    rw [← getChannelNotifications_eq]
    exact hdup
  simp [addNotification, hdup']

theorem channelCount_addNotification_self_le (s : StoreData) (g c : String)
    (t : NotifType) (i : String) (t' : NotifType) :
    channelCount (addNotification s g c t i).2 g c t' ≤ channelCount s g c t' + 1 := by
  cases hdup : (getChannelNotifications s g c).any (entryMatches t i) with
  | true =>
    rw [addNotification_of_dup s g c t i hdup]
    exact Nat.le_succ _
  | false =>
    unfold channelCount
    rw [addNotification_channel_self _ _ _ _ _ hdup, List.countP_append]
    have hone : ([{ type := t, id := i, lastUpdated := none }] : List Notification).countP
        (fun e => decide (e.type = t')) ≤ 1 := by
      by_cases ht : t = t' <;> simp [List.countP_cons, ht]
    omega

theorem channelCount_addNotification_self_ne_type (s : StoreData) (g c : String)
    (t : NotifType) (i : String) (t' : NotifType) (ht : t' ≠ t) :
    channelCount (addNotification s g c t i).2 g c t' = channelCount s g c t' := by
  cases hdup : (getChannelNotifications s g c).any (entryMatches t i) with
  | true =>
    rw [addNotification_of_dup s g c t i hdup]
  | false =>
    unfold channelCount
    rw [addNotification_channel_self _ _ _ _ _ hdup, List.countP_append]
    simp [List.countP_cons, Ne.symm ht]

theorem addAddonChecks_capacity {a : AddCmdArgs} {s : StoreData}
    (h : (addAddonChecks a s).1 = 0) :
    channelCount s a.guildId a.channelId NotifType.addonUpdate < 5 := by
  have h2 : decide (5 ≤ channelCount s a.guildId a.channelId NotifType.addonUpdate) = false :=
    (addErr_zero h).2
  have h3 := of_decide_eq_false h2
  omega

theorem addCollectionChecks_capacity {a : AddCmdArgs} {s : StoreData}
    (h : (addCollectionChecks a s).1 = 0) :
    channelCount s a.guildId a.channelId NotifType.collectionUpdate < 3 := by
  have h2 : decide (3 ≤ channelCount s a.guildId a.channelId NotifType.collectionUpdate) = false :=
    (addErr_zero h).2
  have h3 := of_decide_eq_false h2
  omega

theorem capacityOK_executeAddAddon (a : AddCmdArgs) (s : StoreData) (h : CapacityOK s) :
    CapacityOK (executeAddAddon a s).2 := by
  unfold executeAddAddon
  by_cases he : (addAddonChecks a s).1 = 0
  · rw [if_pos he]
    by_cases hcf : a.confirmed = true
    · rw [if_pos hcf]
      by_cases hdup : isNotification s a.guildId a.channelId NotifType.addonUpdate
          (a.id.getD "") = true
      · rw [if_pos hdup]
        exact h
      · rw [if_neg hdup]
        show CapacityOK (addNotification s a.guildId a.channelId NotifType.addonUpdate
          (a.id.getD "")).2
        intro g' c'
        by_cases hsame : g' = a.guildId ∧ c' = a.channelId
        · obtain ⟨h1, h2⟩ := hsame
          subst h1
          subst h2
          constructor
          · have hlt := addAddonChecks_capacity he
            have hle := channelCount_addNotification_self_le s a.guildId a.channelId
              NotifType.addonUpdate (a.id.getD "") NotifType.addonUpdate
            omega
          · rw [channelCount_addNotification_self_ne_type s a.guildId a.channelId
              NotifType.addonUpdate (a.id.getD "") NotifType.collectionUpdate (by simp)]
            exact (h a.guildId a.channelId).2
        · have hor : g' ≠ a.guildId ∨ c' ≠ a.channelId := by tauto
          constructor
          · rw [channelCount_addNotification_other s a.guildId a.channelId g' c' _ _ _ hor]
            exact (h g' c').1
          · rw [channelCount_addNotification_other s a.guildId a.channelId g' c' _ _ _ hor]
            exact (h g' c').2
    · rw [if_neg hcf]
      exact h
  · rw [if_neg he]
    exact h

theorem capacityOK_executeAddCollection (a : AddCmdArgs) (s : StoreData) (h : CapacityOK s) :
    CapacityOK (executeAddCollection a s).2 := by
  unfold executeAddCollection
  by_cases he : (addCollectionChecks a s).1 = 0
  · rw [if_pos he]
    by_cases hcf : a.confirmed = true
    · rw [if_pos hcf]
      by_cases hdup : isNotification s a.guildId a.channelId NotifType.collectionUpdate
          (a.id.getD "") = true
      · rw [if_pos hdup]
        exact h
      · rw [if_neg hdup]
        show CapacityOK (addNotification s a.guildId a.channelId NotifType.collectionUpdate
          (a.id.getD "")).2
        intro g' c'
        by_cases hsame : g' = a.guildId ∧ c' = a.channelId
        · obtain ⟨h1, h2⟩ := hsame
          subst h1
          subst h2
          constructor
          · rw [channelCount_addNotification_self_ne_type s a.guildId a.channelId
              NotifType.collectionUpdate (a.id.getD "") NotifType.addonUpdate (by simp)]
            exact (h a.guildId a.channelId).1
          · have hlt := addCollectionChecks_capacity he
            have hle := channelCount_addNotification_self_le s a.guildId a.channelId
              NotifType.collectionUpdate (a.id.getD "") NotifType.collectionUpdate
            omega
        · have hor : g' ≠ a.guildId ∨ c' ≠ a.channelId := by tauto
          constructor
          · rw [channelCount_addNotification_other s a.guildId a.channelId g' c' _ _ _ hor]
            exact (h g' c').1
          · rw [channelCount_addNotification_other s a.guildId a.channelId g' c' _ _ _ hor]
            exact (h g' c').2
    · rw [if_neg hcf]
      exact h
  · rw [if_neg he]
    exact h

theorem capacityOK_executeRemove (t : NotifType) (a : RemoveCmdArgs) (s : StoreData)
    (h : CapacityOK s) : CapacityOK (executeRemoveUpdate t a s).2 := by
  unfold executeRemoveUpdate
  by_cases he : (removeChecks t a s).1 = 0
  · rw [if_pos he]
    intro g' c'
    constructor
    · exact le_trans (removeNotification_count_le s a.guildId a.channelId t (a.id.getD "")
        g' c' _) (h g' c').1
    · exact le_trans (removeNotification_count_le s a.guildId a.channelId t (a.id.getD "")
        g' c' _) (h g' c').2
  · rw [if_neg he]
    exact h

theorem capacityOK_executeRemoveAll (a : RemoveCmdArgs) (s : StoreData)
    (h : CapacityOK s) : CapacityOK (executeRemoveAllUpdate a s).2 := by
  unfold executeRemoveAllUpdate
  by_cases he : (addErr (addErr (0, "")
      (!a.hasPermission)
      "You must have Administrator permissions or be the Server Owner to use this command.")
      (decide (channelCount s a.guildId a.channelId NotifType.addonUpdate < 1) ||
        decide (channelCount s a.guildId a.channelId NotifType.collectionUpdate < 1))
      "There are no automatic updater notifications in this channel to remove.").1 = 0
  · rw [if_pos he]
    intro g' c'
    constructor
    · exact le_trans (removeAllNotifications_count_le s a.guildId a.channelId g' c' _)
        (h g' c').1
    · exact le_trans (removeAllNotifications_count_le s a.guildId a.channelId g' c' _)
        (h g' c').2
  · rw [if_neg he]
    exact h

theorem capacityOK_reachable (s : StoreData) (h : Reachable s) : CapacityOK s := by
  induction h with
  | empty =>
    intro g c
    constructor <;> simp [channelCount, getChannelNotifications, lookupKey]
  | stepAddAddon s a _ ih => exact capacityOK_executeAddAddon a s ih
  | stepAddCollection s a _ ih => exact capacityOK_executeAddCollection a s ih
  | stepRemove s t a _ ih => exact capacityOK_executeRemove t a s ih
  | stepRemoveAll s a _ ih => exact capacityOK_executeRemoveAll a s ih

theorem processItem_seed_eq {data : StoreData} {g c : String} {t : NotifType}
    {i : String} {ad : AddonData} {now : Nat} {ok : Bool}
    (hz : (getNotificationLastUpdated data g c t i).getD 0 = 0) :
    processItem data g c t i (some ad) now ok
      = ((setNotificationLastUpdated data g c t i ad.time_updated).2,
         [SweepEvent.setBaseline ad.time_updated]) := by
  simp only [processItem]
  rw [if_pos hz]

theorem processItem_announce_eq {data : StoreData} {g c : String} {t : NotifType}
    {i : String} {ad : AddonData} {now : Nat} {ok : Bool} {T : Nat}
    (hT : getNotificationLastUpdated data g c t i = some T) (hT0 : T ≠ 0)
    (hcond : T < ad.time_updated.getD 0 ∧ 0 < ad.time_updated.getD 0 ∧
      (300000 : Int) ≤ (now : Int) - (T : Int)) :
    processItem data g c t i (some ad) now ok
      = ((setNotificationLastUpdated data g c t i ad.time_updated).2,
         [SweepEvent.setBaseline ad.time_updated, SweepEvent.emitAttempt ok]) := by
  simp only [processItem, hT, Option.getD_some]
  rw [if_neg hT0, if_pos hcond]

theorem processItem_noannounce_eq {data : StoreData} {g c : String} {t : NotifType}
    {i : String} {ad : AddonData} {now : Nat} {ok : Bool} {T : Nat}
    (hT : getNotificationLastUpdated data g c t i = some T) (hT0 : T ≠ 0)
    (hcond : ¬(T < ad.time_updated.getD 0 ∧ 0 < ad.time_updated.getD 0 ∧
      (300000 : Int) ≤ (now : Int) - (T : Int))) :
    processItem data g c t i (some ad) now ok = (data, []) := by
  simp only [processItem, hT, Option.getD_some]
  rw [if_neg hT0, if_neg hcond]

/-- Claim C2: whenever the sweep decides to announce an update for an item,
it calls `setNotificationLastUpdated` with the new remote timestamp before
attempting the channel send (the event trace is exactly the baseline write
followed by the send attempt), the stored baseline afterwards equals the
fetched timestamp whether or not the send succeeds, and a following sweep
over the same item with unchanged remote data announces nothing and leaves
the store unchanged — so an emitter failure cannot cause a duplicate
announcement. -/
theorem announce_sets_baseline_first (data : StoreData) (g c : String) (t : NotifType)
    (i : String) (ad : AddonData) (now : Nat) (ok : Bool)
    (h : SweepEvent.emitAttempt ok ∈ (processItem data g c t i (some ad) now ok).2) :
    (processItem data g c t i (some ad) now ok).2
      = [SweepEvent.setBaseline ad.time_updated, SweepEvent.emitAttempt ok]
    ∧ getNotificationLastUpdated (processItem data g c t i (some ad) now ok).1 g c t i
        = ad.time_updated
    ∧ (∀ (now' : Nat) (ok' : Bool),
        processItem (processItem data g c t i (some ad) now ok).1 g c t i (some ad) now' ok'
          = ((processItem data g c t i (some ad) now ok).1, [])) := by
  by_cases hz : (getNotificationLastUpdated data g c t i).getD 0 = 0
  · rw [processItem_seed_eq hz] at h
    simp at h
  · cases hT : getNotificationLastUpdated data g c t i with
    | none => rw [hT] at hz; simp at hz
    | some T =>
      have hT0 : T ≠ 0 := by
        rw [hT] at hz
        simpa using hz
      by_cases hcond : (T < ad.time_updated.getD 0 ∧ 0 < ad.time_updated.getD 0 ∧
          (300000 : Int) ≤ (now : Int) - (T : Int))
      · have hstep := @processItem_announce_eq data g c t i ad now ok T hT hT0 hcond
        have htracked : isNotification data g c t i = true := isNotification_of_getLast hT
        have hset := setNotificationLastUpdated_spec data g c t i ad.time_updated htracked
        obtain ⟨v, hv⟩ : ∃ v, ad.time_updated = some v := by
          cases hval : ad.time_updated with
          | none => rw [hval] at hcond; simp at hcond
          | some v => exact ⟨v, rfl⟩
        have hvpos : 0 < v := by
          have := hcond.2.1
          rw [hv] at this
          simpa using this
        rw [hstep]
        refine ⟨rfl, hset.2.1, ?_⟩
        intro now' ok'
        have hT' : getNotificationLastUpdated
            (setNotificationLastUpdated data g c t i ad.time_updated).2 g c t i = some v := by
          rw [hset.2.1, hv]
        refine processItem_noannounce_eq hT' (by omega) ?_
        rw [hv]
        simp only [Option.getD_some]
        intro hcontra
        exact absurd hcontra.1 (lt_irrefl v)
      · rw [processItem_noannounce_eq hT hT0 hcond] at h
        simp at h

/-- Claim C5: for a tracked item whose stored `lastUpdated` is absent, a
sweep step with a successful fetch seeds the baseline to the fetched
timestamp and emits nothing, whatever the fetched timestamp is. -/
theorem first_observation_seeds_silently (data : StoreData) (g c : String)
    (t : NotifType) (i : String) (ad : AddonData) (now : Nat) (ok : Bool)
    (htracked : isNotification data g c t i = true)
    (habs : getNotificationLastUpdated data g c t i = none) :
    (processItem data g c t i (some ad) now ok).2 = [SweepEvent.setBaseline ad.time_updated]
    ∧ (∀ b, SweepEvent.emitAttempt b ∉ (processItem data g c t i (some ad) now ok).2)
    ∧ getNotificationLastUpdated (processItem data g c t i (some ad) now ok).1 g c t i
        = ad.time_updated := by
  have hz : (getNotificationLastUpdated data g c t i).getD 0 = 0 := by
    rw [habs]
    rfl
  rw [processItem_seed_eq hz]
  refine ⟨rfl, ?_, ?_⟩
  · intro b
    simp
  · exact (setNotificationLastUpdated_spec data g c t i ad.time_updated htracked).2.1

/-- Claim C9: a stored baseline of `0` is treated by the sweep exactly like
an absent baseline: the step re-seeds the baseline to the fetched timestamp
and emits nothing. -/
theorem zero_baseline_reseeds (data : StoreData) (g c : String) (t : NotifType)
    (i : String) (ad : AddonData) (now : Nat) (ok : Bool)
    (hzero : getNotificationLastUpdated data g c t i = some 0) :
    (processItem data g c t i (some ad) now ok).2 = [SweepEvent.setBaseline ad.time_updated]
    ∧ (∀ b, SweepEvent.emitAttempt b ∉ (processItem data g c t i (some ad) now ok).2)
    ∧ getNotificationLastUpdated (processItem data g c t i (some ad) now ok).1 g c t i
        = ad.time_updated := by
  have htracked : isNotification data g c t i = true := isNotification_of_getLast hzero
  have hz : (getNotificationLastUpdated data g c t i).getD 0 = 0 := by
    rw [hzero]
    rfl
  rw [processItem_seed_eq hz]
  refine ⟨rfl, ?_, ?_⟩
  · intro b
    simp
  · exact (setNotificationLastUpdated_spec data g c t i ad.time_updated htracked).2.1

/-- Claim C1, counterexample: with the baseline seeded by a sweep at wall
clock 1700000000000 ms, a second sweep only 100000 ms (100 s, less than the
300 s debounce) later with a strictly newer remote timestamp still
announces, because the source computes `Date.now() - lastUpdated` — current
milliseconds minus the remote epoch timestamp in seconds — rather than the
time since the baseline was stored, so the claimed no-announce case fails. -/
theorem sweep_debounce_counterexample :
    (1700000100000 - 1700000000000 : Nat) < 300000
    ∧ SweepEvent.emitAttempt true ∈ (processItem
        (processItem (addNotification [] "g" "c" NotifType.addonUpdate "1").2
          "g" "c" NotifType.addonUpdate "1"
          (some { time_updated := some 1600000000 }) 1700000000000 true).1
        "g" "c" NotifType.addonUpdate "1"
        (some { time_updated := some 1600000500 }) 1700000100000 true).2 := by
  decide

/-- Claim C1 (amended): for a tracked item with a present, nonzero stored
baseline `T`, a sweep step announces if and only if the fetched
`time_updated` exceeds `T`, is positive, and `now` (the `Date.now()`
millisecond clock) minus `T` (the stored baseline value, seconds since
epoch) is at least 300000 — not the wall-clock time since the baseline was
stored, which the store never records; on announcing, the baseline is
updated to the fetched timestamp. -/
theorem sweep_announce_iff (data : StoreData) (g c : String) (t : NotifType)
    (i : String) (ad : AddonData) (now : Nat) (ok : Bool) (T : Nat)
    (hT : getNotificationLastUpdated data g c t i = some T) (hT0 : T ≠ 0) :
    ((SweepEvent.emitAttempt ok ∈ (processItem data g c t i (some ad) now ok).2)
      ↔ (T < ad.time_updated.getD 0 ∧ 0 < ad.time_updated.getD 0 ∧
          (300000 : Int) ≤ (now : Int) - (T : Int)))
    ∧ ((T < ad.time_updated.getD 0 ∧ 0 < ad.time_updated.getD 0 ∧
          (300000 : Int) ≤ (now : Int) - (T : Int)) →
        getNotificationLastUpdated (processItem data g c t i (some ad) now ok).1 g c t i
          = ad.time_updated) := by
  by_cases hcond : (T < ad.time_updated.getD 0 ∧ 0 < ad.time_updated.getD 0 ∧
      (300000 : Int) ≤ (now : Int) - (T : Int))
  · rw [processItem_announce_eq hT hT0 hcond]
    constructor
    · simp [hcond]
    · intro _
      exact (setNotificationLastUpdated_spec data g c t i ad.time_updated
        (isNotification_of_getLast hT)).2.1
  · rw [processItem_noannounce_eq hT hT0 hcond]
    constructor
    · simp [hcond]
    · intro hc
      exact absurd hc hcond

/-- Witness for the amended C1 theorem at a concrete input. -/
theorem sweep_announce_iff_witness :
    getNotificationLastUpdated
        [("g", [("c", [{ type := NotifType.addonUpdate, id := "1", lastUpdated := some 1000 }])])]
        "g" "c" NotifType.addonUpdate "1" = some 1000
    ∧ (1000 ≠ 0)
    ∧ ((SweepEvent.emitAttempt true ∈ (processItem
          [("g", [("c", [{ type := NotifType.addonUpdate, id := "1", lastUpdated := some 1000 }])])]
          "g" "c" NotifType.addonUpdate "1"
          (some { time_updated := some 2000 }) 301000 true).2)
        ↔ (1000 < ({ time_updated := some 2000 } : AddonData).time_updated.getD 0
            ∧ 0 < ({ time_updated := some 2000 } : AddonData).time_updated.getD 0
            ∧ (300000 : Int) ≤ ((301000 : Nat) : Int) - ((1000 : Nat) : Int))) :=
  ⟨by decide, by decide,
    (sweep_announce_iff
      [("g", [("c", [{ type := NotifType.addonUpdate, id := "1", lastUpdated := some 1000 }])])]
      "g" "c" NotifType.addonUpdate "1" { time_updated := some 2000 } 301000 true 1000
      (by decide) (by decide)).1⟩

/-- Witness for the C2 theorem: a concrete announcement with a failing
emitter still updates the baseline first and suppresses the next sweep. -/
theorem announce_sets_baseline_first_witness :
    (SweepEvent.emitAttempt false ∈ (processItem
        [("g", [("c", [{ type := NotifType.addonUpdate, id := "1", lastUpdated := some 1000 }])])]
        "g" "c" NotifType.addonUpdate "1"
        (some { time_updated := some 2000 }) 301000 false).2)
    ∧ ((processItem
          [("g", [("c", [{ type := NotifType.addonUpdate, id := "1", lastUpdated := some 1000 }])])]
          "g" "c" NotifType.addonUpdate "1"
          (some { time_updated := some 2000 }) 301000 false).2
        = [SweepEvent.setBaseline (some 2000), SweepEvent.emitAttempt false]
      ∧ getNotificationLastUpdated (processItem
          [("g", [("c", [{ type := NotifType.addonUpdate, id := "1", lastUpdated := some 1000 }])])]
          "g" "c" NotifType.addonUpdate "1"
          (some { time_updated := some 2000 }) 301000 false).1 "g" "c" NotifType.addonUpdate "1"
        = some 2000
      ∧ (∀ (now' : Nat) (ok' : Bool),
          processItem (processItem
            [("g", [("c", [{ type := NotifType.addonUpdate, id := "1", lastUpdated := some 1000 }])])]
            "g" "c" NotifType.addonUpdate "1"
            (some { time_updated := some 2000 }) 301000 false).1
            "g" "c" NotifType.addonUpdate "1" (some { time_updated := some 2000 }) now' ok'
          = ((processItem
              [("g", [("c", [{ type := NotifType.addonUpdate, id := "1", lastUpdated := some 1000 }])])]
              "g" "c" NotifType.addonUpdate "1"
              (some { time_updated := some 2000 }) 301000 false).1, []))) :=
  ⟨by decide,
    announce_sets_baseline_first
      [("g", [("c", [{ type := NotifType.addonUpdate, id := "1", lastUpdated := some 1000 }])])]
      "g" "c" NotifType.addonUpdate "1" { time_updated := some 2000 } 301000 false
      (by decide)⟩

/-- Witness for the C5 theorem at a concrete first observation. -/
theorem first_observation_witness :
    isNotification [("g", [("c", [{ type := NotifType.addonUpdate, id := "1", lastUpdated := none }])])]
      "g" "c" NotifType.addonUpdate "1" = true
    ∧ getNotificationLastUpdated
        [("g", [("c", [{ type := NotifType.addonUpdate, id := "1", lastUpdated := none }])])]
        "g" "c" NotifType.addonUpdate "1" = none
    ∧ ((processItem
        [("g", [("c", [{ type := NotifType.addonUpdate, id := "1", lastUpdated := none }])])]
        "g" "c" NotifType.addonUpdate "1" (some { time_updated := some 12345 }) 7 true).2
          = [SweepEvent.setBaseline (some 12345)]
      ∧ (∀ b, SweepEvent.emitAttempt b ∉ (processItem
          [("g", [("c", [{ type := NotifType.addonUpdate, id := "1", lastUpdated := none }])])]
          "g" "c" NotifType.addonUpdate "1" (some { time_updated := some 12345 }) 7 true).2)
      ∧ getNotificationLastUpdated ((processItem
          [("g", [("c", [{ type := NotifType.addonUpdate, id := "1", lastUpdated := none }])])]
          "g" "c" NotifType.addonUpdate "1" (some { time_updated := some 12345 }) 7 true).1)
          "g" "c" NotifType.addonUpdate "1" = some 12345) :=
  ⟨by decide, by decide,
    first_observation_seeds_silently
      [("g", [("c", [{ type := NotifType.addonUpdate, id := "1", lastUpdated := none }])])]
      "g" "c" NotifType.addonUpdate "1" { time_updated := some 12345 } 7 true
      (by decide) (by decide)⟩

/-- Witness for the C9 theorem at a concrete zero baseline. -/
theorem zero_baseline_witness :
    getNotificationLastUpdated
        [("g", [("c", [{ type := NotifType.addonUpdate, id := "1", lastUpdated := some 0 }])])]
        "g" "c" NotifType.addonUpdate "1" = some 0
    ∧ ((processItem
        [("g", [("c", [{ type := NotifType.addonUpdate, id := "1", lastUpdated := some 0 }])])]
        "g" "c" NotifType.addonUpdate "1" (some { time_updated := some 7 }) 999 true).2
          = [SweepEvent.setBaseline (some 7)]
      ∧ (∀ b, SweepEvent.emitAttempt b ∉ (processItem
          [("g", [("c", [{ type := NotifType.addonUpdate, id := "1", lastUpdated := some 0 }])])]
          "g" "c" NotifType.addonUpdate "1" (some { time_updated := some 7 }) 999 true).2)
      ∧ getNotificationLastUpdated ((processItem
          [("g", [("c", [{ type := NotifType.addonUpdate, id := "1", lastUpdated := some 0 }])])]
          "g" "c" NotifType.addonUpdate "1" (some { time_updated := some 7 }) 999 true).1)
          "g" "c" NotifType.addonUpdate "1" = some 7) :=
  ⟨by decide,
    zero_baseline_reseeds
      [("g", [("c", [{ type := NotifType.addonUpdate, id := "1", lastUpdated := some 0 }])])]
      "g" "c" NotifType.addonUpdate "1" { time_updated := some 7 } 999 true
      (by decide)⟩

theorem isNotification_eq_any (data : StoreData) (g c : String) (t : NotifType)
    (i : String) :
    isNotification data g c t i = (getChannelNotifications data g c).any (entryMatches t i) := by
  cases hg : lookupKey data g with
  | none => simp [isNotification, getChannelNotifications, hg]
  | some gd =>
    cases hc : lookupKey gd c with
    | none => simp [isNotification, getChannelNotifications, hg, hc]
    | some l => simp [isNotification, getChannelNotifications, hg, hc]

theorem addNotification_fst_of_not_dup (s : StoreData) (g c : String) (t : NotifType)
    (i : String)
    (hdup : (getChannelNotifications s g c).any (entryMatches t i) = false) :
    (addNotification s g c t i).1 = true := by
  have hdup' : (((lookupKey ((lookupKey s g).getD []) c).getD []).any (entryMatches t i)) = false := by
    rw [← getChannelNotifications_eq]
    exact hdup
  simp [addNotification, hdup']

theorem filter_not_length_lt_of_any {l : List Notification} {p : Notification → Bool}
    (h : l.any p = true) : (l.filter (fun e => !(p e))).length < l.length := by
  induction l with
  | nil => simp at h
  | cons a rest ih =>
    cases ha : p a with
    | true =>
      rw [List.filter_cons, if_neg (by simp [ha])]
      have hle := List.length_filter_le (fun e => !(p e)) rest
      simp only [List.length_cons]
      omega
    | false =>
      have h' : rest.any p = true := by simpa [List.any_cons, ha] using h
      have hlt := ih h'
      rw [List.filter_cons, if_pos (by simp [ha])]
      simp only [List.length_cons]
      omega

theorem filter_not_eq_self_of_not_any {l : List Notification} {p : Notification → Bool}
    (h : l.any p = false) : l.filter (fun e => !(p e)) = l := by
  induction l with
  | nil => rfl
  | cons a rest ih =>
    cases ha : p a with
    | true =>
      rw [List.any_cons, ha] at h
      simp at h
    | false =>
      rw [List.any_cons, ha] at h
      simp only [Bool.false_or] at h
      rw [List.filter_cons, if_pos (by simp [ha]), ih h]

theorem countP_eq_zero_of_not_any {l : List Notification} {p : Notification → Bool}
    (h : l.any p = false) : l.countP p = 0 := by
  induction l with
  | nil => rfl
  | cons a rest ih =>
    cases ha : p a with
    | true =>
      rw [List.any_cons, ha] at h
      simp at h
    | false =>
      rw [List.any_cons, ha] at h
      simp only [Bool.false_or] at h
      rw [List.countP_cons, ih h]
      simp [ha]

/-- Claim C3: `addNotification` returns `false` and leaves the persisted
document unchanged when a matching entry already exists in the channel;
otherwise it returns `true` and appends `{type, id}` with no `lastUpdated`
(creating missing containers), after which `isNotification` holds, a second
identical add returns `false` leaving the document unchanged, and the
channel holds exactly one matching entry. -/
theorem add_contract (data : StoreData) (g c : String) (t : NotifType) (i : String) :
    (isNotification data g c t i = true → addNotification data g c t i = (false, data))
    ∧ (isNotification data g c t i = false →
        (addNotification data g c t i).1 = true
        ∧ getChannelNotifications (addNotification data g c t i).2 g c
            = getChannelNotifications data g c
              ++ [{ type := t, id := i, lastUpdated := none }]
        ∧ isNotification (addNotification data g c t i).2 g c t i = true
        ∧ addNotification (addNotification data g c t i).2 g c t i
            = (false, (addNotification data g c t i).2)
        ∧ (getChannelNotifications (addNotification data g c t i).2 g c).countP
            (entryMatches t i) = 1) := by
  constructor
  · intro h
    have hany : (getChannelNotifications data g c).any (entryMatches t i) = true := by
      rw [← isNotification_eq_any]
      exact h
    exact addNotification_of_dup data g c t i hany
  · intro h
    have hany : (getChannelNotifications data g c).any (entryMatches t i) = false := by
      rw [← isNotification_eq_any]
      exact h
    have hchan := addNotification_channel_self data g c t i hany
    have hmatch : entryMatches t i { type := t, id := i, lastUpdated := none } = true := by
      simp [entryMatches]
    have histracked : isNotification (addNotification data g c t i).2 g c t i = true := by
      rw [isNotification_eq_any, hchan]
      simp [List.any_append, hmatch]
    refine ⟨addNotification_fst_of_not_dup data g c t i hany, hchan, histracked, ?_, ?_⟩
    · have hany2 : (getChannelNotifications (addNotification data g c t i).2 g c).any
          (entryMatches t i) = true := by
        rw [← isNotification_eq_any]
        exact histracked
      exact addNotification_of_dup _ g c t i hany2
    · rw [hchan, List.countP_append, countP_eq_zero_of_not_any hany]
      simp [List.countP_cons, hmatch]

/-- Witness for the C3 theorem at a concrete fresh add. -/
theorem add_contract_witness :
    isNotification [] "g" "c" NotifType.addonUpdate "1" = false
    ∧ ((addNotification [] "g" "c" NotifType.addonUpdate "1").1 = true
      ∧ getChannelNotifications (addNotification [] "g" "c" NotifType.addonUpdate "1").2 "g" "c"
          = getChannelNotifications [] "g" "c"
            ++ [{ type := NotifType.addonUpdate, id := "1", lastUpdated := none }]
      ∧ isNotification (addNotification [] "g" "c" NotifType.addonUpdate "1").2 "g" "c"
          NotifType.addonUpdate "1" = true
      ∧ addNotification (addNotification [] "g" "c" NotifType.addonUpdate "1").2 "g" "c"
          NotifType.addonUpdate "1"
          = (false, (addNotification [] "g" "c" NotifType.addonUpdate "1").2)
      ∧ (getChannelNotifications (addNotification [] "g" "c" NotifType.addonUpdate "1").2
          "g" "c").countP (entryMatches NotifType.addonUpdate "1") = 1) :=
  ⟨by decide, (add_contract [] "g" "c" NotifType.addonUpdate "1").2 (by decide)⟩

/-- Claim C4, counterexample: in a document where the server and channel
keys exist but the channel's entry list is empty, no entry matches, yet
`removeNotification` returns `true` and rewrites the document (pruning both
containers) instead of returning `false` and leaving it unchanged. -/
theorem remove_empty_channel_counterexample :
    (∀ e, e ∈ getChannelNotifications [("g", [("c", [])])] "g" "c" →
      entryMatches NotifType.addonUpdate "1" e = false)
    ∧ removeNotification [("g", [("c", [])])] "g" "c" NotifType.addonUpdate "1"
        = (true, []) := by
  decide

/-- Claim C4 (amended): `removeNotification` returns `false` and leaves the
document unchanged when the server or channel key is absent, or when the
channel's list is nonempty and holds no matching entry; when a matching
entry exists it returns `true`, the channel afterwards holds exactly the
non-matching entries, the channel key is pruned exactly when that residue
is empty, and the server key is pruned exactly when the channel was pruned
and the server object became empty.  (The one case the original claim got
wrong: a present channel with an empty list also yields `true` and prunes,
see the counterexample and claim C10.) -/
theorem remove_contract (data : StoreData) (g c : String) (t : NotifType) (i : String) :
    (lookupKey data g = none → removeNotification data g c t i = (false, data))
    ∧ (∀ gd, lookupKey data g = some gd → lookupKey gd c = none →
        removeNotification data g c t i = (false, data))
    ∧ (∀ gd l, lookupKey data g = some gd → lookupKey gd c = some l → l ≠ [] →
        l.any (entryMatches t i) = false →
        removeNotification data g c t i = (false, data))
    ∧ (∀ gd l, lookupKey data g = some gd → lookupKey gd c = some l →
        l.any (entryMatches t i) = true →
        (removeNotification data g c t i).1 = true
        ∧ ((lookupKey (removeNotification data g c t i).2 g).bind
              (fun gd' => lookupKey gd' c))
            = (if l.filter (fun e => !(entryMatches t i e)) = [] then none
               else some (l.filter (fun e => !(entryMatches t i e))))
        ∧ (lookupKey (removeNotification data g c t i).2 g = none
            ↔ (l.filter (fun e => !(entryMatches t i e)) = [] ∧ eraseKey gd c = []))) := by
  refine ⟨?_, ?_, ?_, ?_⟩
  · intro h
    simp [removeNotification, h]
  · intro gd hg hc
    simp [removeNotification, hg, hc]
  · intro gd l hg hc hne hany
    have hfl : l.filter (fun e => !(entryMatches t i e)) = l :=
      filter_not_eq_self_of_not_any hany
    rw [removeNotification_eq_of_nonempty hg hc (by rw [hfl]; exact hne)]
    rw [if_pos (by rw [hfl])]
  · intro gd l hg hc hany
    by_cases hempty : l.filter (fun e => !(entryMatches t i e)) = []
    · rw [removeNotification_eq_of_empty hg hc hempty]
      by_cases hzero : (eraseKey gd c).length = 0
      · rw [if_pos hzero]
        have hznil : eraseKey gd c = [] := List.length_eq_zero.mp hzero
        refine ⟨rfl, ?_, ?_⟩
        · rw [lookupKey_eraseKey_self]
          rw [if_pos hempty]
          rfl
        · simp [lookupKey_eraseKey_self, hempty, hznil]
      · rw [if_neg hzero]
        have hznil : eraseKey gd c ≠ [] := fun hh => hzero (by rw [hh]; rfl)
        refine ⟨rfl, ?_, ?_⟩
        · rw [lookupKey_setKey_self]
          rw [Option.some_bind]
          rw [lookupKey_eraseKey_self, if_pos hempty]
        · rw [lookupKey_setKey_self]
          simp [hznil]
    · rw [removeNotification_eq_of_nonempty hg hc hempty]
      have hlt := filter_not_length_lt_of_any hany
      rw [if_neg (by omega)]
      refine ⟨rfl, ?_, ?_⟩
      · rw [lookupKey_setKey_self]
        rw [Option.some_bind]
        rw [lookupKey_setKey_self, if_neg hempty]
      · rw [lookupKey_setKey_self]
        simp [hempty]

/-- Witness for the amended C4 theorem: removing the only matching entry
returns true and prunes both containers. -/
theorem remove_contract_witness :
    lookupKey ([("g", [("c", [{ type := NotifType.addonUpdate, id := "1", lastUpdated := none }])])] : StoreData) "g"
      = some [("c", [{ type := NotifType.addonUpdate, id := "1", lastUpdated := none }])]
    ∧ lookupKey ([("c", [{ type := NotifType.addonUpdate, id := "1", lastUpdated := none }])] : GuildNotifications) "c"
      = some [{ type := NotifType.addonUpdate, id := "1", lastUpdated := none }]
    ∧ ([{ type := NotifType.addonUpdate, id := "1", lastUpdated := none }] : List Notification).any
        (entryMatches NotifType.addonUpdate "1") = true
    ∧ ((removeNotification [("g", [("c", [{ type := NotifType.addonUpdate, id := "1", lastUpdated := none }])])]
        "g" "c" NotifType.addonUpdate "1").1 = true
      ∧ ((lookupKey (removeNotification [("g", [("c", [{ type := NotifType.addonUpdate, id := "1", lastUpdated := none }])])]
            "g" "c" NotifType.addonUpdate "1").2 "g").bind (fun gd' => lookupKey gd' "c"))
          = (if ([{ type := NotifType.addonUpdate, id := "1", lastUpdated := none }] : List Notification).filter
              (fun e => !(entryMatches NotifType.addonUpdate "1" e)) = [] then none
             else some (([{ type := NotifType.addonUpdate, id := "1", lastUpdated := none }] : List Notification).filter
              (fun e => !(entryMatches NotifType.addonUpdate "1" e))))
      ∧ (lookupKey (removeNotification [("g", [("c", [{ type := NotifType.addonUpdate, id := "1", lastUpdated := none }])])]
            "g" "c" NotifType.addonUpdate "1").2 "g" = none
          ↔ (([{ type := NotifType.addonUpdate, id := "1", lastUpdated := none }] : List Notification).filter
              (fun e => !(entryMatches NotifType.addonUpdate "1" e)) = []
            ∧ eraseKey ([("c", [{ type := NotifType.addonUpdate, id := "1", lastUpdated := none }])] : GuildNotifications) "c" = []))) :=
  ⟨by decide, by decide, by decide,
    (remove_contract [("g", [("c", [{ type := NotifType.addonUpdate, id := "1", lastUpdated := none }])])]
      "g" "c" NotifType.addonUpdate "1").2.2.2
      [("c", [{ type := NotifType.addonUpdate, id := "1", lastUpdated := none }])]
      [{ type := NotifType.addonUpdate, id := "1", lastUpdated := none }]
      (by decide) (by decide) (by decide)⟩

/-- Claim C10: calling `removeNotification` on a server and channel that
exist but whose entry list is empty returns `true`, prunes the channel key
(and the server key if the server object becomes empty), and persists the
rewritten document (the returned `true` coincides with the `saveData` call
in the source). -/
theorem remove_empty_channel_prunes (data : StoreData) (g c : String) (t : NotifType)
    (i : String) (gd : GuildNotifications)
    (hg : lookupKey data g = some gd) (hc : lookupKey gd c = some []) :
    (removeNotification data g c t i).1 = true
    ∧ ((lookupKey (removeNotification data g c t i).2 g).bind
        (fun gd' => lookupKey gd' c)) = none
    ∧ (lookupKey (removeNotification data g c t i).2 g = none ↔ eraseKey gd c = []) := by
  have hempty : ([] : List Notification).filter (fun e => !(entryMatches t i e)) = [] := rfl
  rw [removeNotification_eq_of_empty hg hc hempty]
  by_cases hzero : (eraseKey gd c).length = 0
  · rw [if_pos hzero]
    have hznil : eraseKey gd c = [] := List.length_eq_zero.mp hzero
    refine ⟨rfl, ?_, ?_⟩
    · rw [lookupKey_eraseKey_self]
      rfl
    · simp [lookupKey_eraseKey_self, hznil]
  · rw [if_neg hzero]
    have hznil : eraseKey gd c ≠ [] := fun hh => hzero (by rw [hh]; rfl)
    refine ⟨rfl, ?_, ?_⟩
    · rw [lookupKey_setKey_self]
      rw [Option.some_bind]
      rw [lookupKey_eraseKey_self]
    · rw [lookupKey_setKey_self]
      simp [hznil]

/-- Witness for the C10 theorem at a concrete empty channel. -/
theorem remove_empty_channel_prunes_witness :
    lookupKey ([("g", [("c", ([] : List Notification))])] : StoreData) "g" = some [("c", [])]
    ∧ lookupKey ([("c", ([] : List Notification))] : GuildNotifications) "c" = some []
    ∧ ((removeNotification [("g", [("c", [])])] "g" "c" NotifType.addonUpdate "1").1 = true
      ∧ ((lookupKey (removeNotification [("g", [("c", [])])] "g" "c" NotifType.addonUpdate "1").2 "g").bind
          (fun gd' => lookupKey gd' "c")) = none
      ∧ (lookupKey (removeNotification [("g", [("c", [])])] "g" "c" NotifType.addonUpdate "1").2 "g" = none
          ↔ eraseKey ([("c", ([] : List Notification))] : GuildNotifications) "c" = [])) :=
  ⟨by decide, by decide,
    remove_empty_channel_prunes [("g", [("c", [])])] "g" "c" NotifType.addonUpdate "1"
      [("c", [])] (by decide) (by decide)⟩

/-- Claim C6: when the backing file is missing, has size zero, holds only
whitespace, or holds unparsable content, every store operation behaves as
if the document were `{}`, the backing file is rewritten to `{}`, and the
condition never surfaces as an error (the source catches the parse failure
and heals; every branch of the embedding returns normally). -/
theorem store_self_heals (r : RawDoc)
    (h : r = RawDoc.missing ∨ r = RawDoc.sizeZero ∨ r = RawDoc.blank ∨ r = RawDoc.invalid) :
    readData r = ([], RawDoc.valid [])
    ∧ (∀ (g c : String) (t : NotifType) (i : String),
        fileIsNotification r g c t i = (false, RawDoc.valid []))
    ∧ (∀ (g c : String) (t : NotifType) (i : String),
        fileAddNotification r g c t i = fileAddNotification (RawDoc.valid []) g c t i)
    ∧ (∀ g c, fileGetChannelNotifications r g c = ([], RawDoc.valid [])) := by
  have hr : readData r = ([], RawDoc.valid []) := by
    rcases h with h | h | h | h <;> subst h <;> rfl
  refine ⟨hr, ?_, ?_, ?_⟩
  · intro g c t i
    simp [fileIsNotification, hr, isNotification, lookupKey]
  · intro g c t i
    have hval : readData (RawDoc.valid []) = ([], RawDoc.valid []) := rfl
    simp only [fileAddNotification, hr, hval]
  · intro g c
    simp [fileGetChannelNotifications, hr, getChannelNotifications, lookupKey]

/-- Witness for the C6 theorem at the unreadable-file state. -/
theorem store_self_heals_witness :
    readData RawDoc.invalid = ([], RawDoc.valid [])
    ∧ fileIsNotification RawDoc.invalid "g" "c" NotifType.addonUpdate "1"
        = (false, RawDoc.valid [])
    ∧ fileAddNotification RawDoc.invalid "g" "c" NotifType.addonUpdate "1"
        = fileAddNotification (RawDoc.valid []) "g" "c" NotifType.addonUpdate "1"
    ∧ fileGetChannelNotifications RawDoc.invalid "g" "c" = ([], RawDoc.valid []) :=
  ⟨(store_self_heals RawDoc.invalid (Or.inr (Or.inr (Or.inr rfl)))).1,
   (store_self_heals RawDoc.invalid (Or.inr (Or.inr (Or.inr rfl)))).2.1
     "g" "c" NotifType.addonUpdate "1",
   (store_self_heals RawDoc.invalid (Or.inr (Or.inr (Or.inr rfl)))).2.2.1
     "g" "c" NotifType.addonUpdate "1",
   (store_self_heals RawDoc.invalid (Or.inr (Or.inr (Or.inr rfl)))).2.2.2 "g" "c"⟩

theorem addAddonChecks_pos_of_invalid (a : AddCmdArgs) (s : StoreData)
    (h : idValid a.id = false) : (addAddonChecks a s).1 ≠ 0 := by
  simp only [addAddonChecks]
  cases hid : a.id with
  | none =>
    apply addErr_carry
    apply addErr_carry
    apply addErr_carry
    apply addErr_carry
    apply addErr_carry
    exact addErr_pos (by decide)
  | some v =>
    rw [hid] at h
    cases hvempty : v.data.isEmpty with
    | true =>
      apply addErr_carry
      apply addErr_carry
      apply addErr_carry
      apply addErr_carry
      apply addErr_carry
      exact addErr_pos (by simp [isTruthyStr, hvempty])
    | false =>
      by_cases hvlen : 20 < v.length
      · apply addErr_carry
        apply addErr_carry
        apply addErr_carry
        apply addErr_carry
        exact addErr_pos (by simp [isTruthyStr, hvempty, hvlen])
      · have hd : digitsOnly v = false := by
          cases hdd : digitsOnly v with
          | false => rfl
          | true =>
            exfalso
            have hval : idValid (some v) = true := by
              simp [idValid, hvempty, Nat.le_of_not_lt hvlen, hdd]
            rw [hval] at h
            simp at h
        apply addErr_carry
        apply addErr_carry
        apply addErr_carry
        exact addErr_pos (by simp [isTruthyStr, hvempty, hd])

theorem addAddonChecks_msg_ne {a : AddCmdArgs} {s : StoreData}
    (h : (addAddonChecks a s).1 ≠ 0) : (addAddonChecks a s).2 ≠ "" := by
  simp only [addAddonChecks] at h ⊢
  exact addErr_msg (by decide)
    (addErr_msg (by decide)
      (addErr_msg (by decide)
        (addErr_msg (by decide)
          (addErr_msg (by decide)
            (addErr_msg (by decide)
              (addErr_msg (by decide) (fun h0 => absurd rfl h0))))))) h

/-- Claim C7, counterexample: an invocation with the non-numeric identifier
`"abc"` fails validation, yet the trace of `add-addon-update` contains a
Steam fetch — the source performs the fetch unconditionally, before
deciding on the accumulated validation errors. -/
theorem invalid_id_still_fetches :
    idValid (some "abc") = false
    ∧ CmdEvent.fetcherCall ∈ (executeAddAddon
        { hasPermission := true, id := some "abc", fetchOk := true, fetchValid := true,
          collFetchOk := true, collFetchValid := true, guildId := "g", channelId := "c",
          confirmed := true } []).1 := by
  decide

/-- Claim C7 (amended): an `add-addon-update` invocation whose identifier
fails validation is rejected with a nonempty error message and performs no
store mutation, leaving the store unchanged — but the Item Data Fetcher
call is still made before the rejection, contrary to the original claim. -/
theorem invalid_id_rejected_without_mutation (a : AddCmdArgs) (s : StoreData)
    (h : idValid a.id = false) :
    (executeAddAddon a s).2 = s
    ∧ CmdEvent.storeMutation ∉ (executeAddAddon a s).1
    ∧ (∃ m, CmdEvent.rejectMessage m ∈ (executeAddAddon a s).1 ∧ m ≠ "")
    ∧ CmdEvent.fetcherCall ∈ (executeAddAddon a s).1 := by
  have he := addAddonChecks_pos_of_invalid a s h
  have hmsg := addAddonChecks_msg_ne he
  unfold executeAddAddon
  rw [if_neg he]
  refine ⟨rfl, by simp, ⟨(addAddonChecks a s).2, by simp, hmsg⟩, by simp⟩

/-- Witness for the amended C7 theorem at a concrete invalid identifier. -/
theorem invalid_id_rejected_witness :
    idValid (some "12345678901234567890123") = false
    ∧ ((executeAddAddon
        { hasPermission := true, id := some "12345678901234567890123", fetchOk := true,
          fetchValid := true, collFetchOk := true, collFetchValid := true,
          guildId := "g", channelId := "c", confirmed := true } []).2 = []
      ∧ CmdEvent.storeMutation ∉ (executeAddAddon
          { hasPermission := true, id := some "12345678901234567890123", fetchOk := true,
            fetchValid := true, collFetchOk := true, collFetchValid := true,
            guildId := "g", channelId := "c", confirmed := true } []).1
      ∧ (∃ m, CmdEvent.rejectMessage m ∈ (executeAddAddon
          { hasPermission := true, id := some "12345678901234567890123", fetchOk := true,
            fetchValid := true, collFetchOk := true, collFetchValid := true,
            guildId := "g", channelId := "c", confirmed := true } []).1 ∧ m ≠ "")
      ∧ CmdEvent.fetcherCall ∈ (executeAddAddon
          { hasPermission := true, id := some "12345678901234567890123", fetchOk := true,
            fetchValid := true, collFetchOk := true, collFetchValid := true,
            guildId := "g", channelId := "c", confirmed := true } []).1) :=
  ⟨by decide,
    invalid_id_rejected_without_mutation
      { hasPermission := true, id := some "12345678901234567890123", fetchOk := true,
        fetchValid := true, collFetchOk := true, collFetchValid := true,
        guildId := "g", channelId := "c", confirmed := true } [] (by decide)⟩

/-- Claim C8: the command surface rejects an addon addition when the channel
already holds 5 addon-update entries and a collection addition when it
holds 3 collection-update entries, in both cases before any store write
(the store is returned unchanged and the trace has no mutation), and every
store reachable from the empty document through the command surface keeps
at most 5 addon-update and at most 3 collection-update entries per
channel. -/
theorem capacity_enforced :
    (∀ (a : AddCmdArgs) (s : StoreData),
        5 ≤ channelCount s a.guildId a.channelId NotifType.addonUpdate →
        (executeAddAddon a s).2 = s
          ∧ CmdEvent.storeMutation ∉ (executeAddAddon a s).1)
    ∧ (∀ (a : AddCmdArgs) (s : StoreData),
        3 ≤ channelCount s a.guildId a.channelId NotifType.collectionUpdate →
        (executeAddCollection a s).2 = s
          ∧ CmdEvent.storeMutation ∉ (executeAddCollection a s).1)
    ∧ (∀ s, Reachable s → CapacityOK s) := by
  refine ⟨?_, ?_, capacityOK_reachable⟩
  · intro a s hcap
    have he : (addAddonChecks a s).1 ≠ 0 := by
      simp only [addAddonChecks]
      exact addErr_pos (by simpa using hcap)
    unfold executeAddAddon
    rw [if_neg he]
    exact ⟨rfl, by simp⟩
  · intro a s hcap
    have he : (addCollectionChecks a s).1 ≠ 0 := by
      simp only [addCollectionChecks]
      exact addErr_pos (by simpa using hcap)
    unfold executeAddCollection
    rw [if_neg he]
    exact ⟨rfl, by simp⟩

/-- Witness for the C8 theorem: a full channel rejects a sixth addon entry
and a fourth collection entry, and a store reachable in zero steps meets
the bounds. -/
theorem capacity_enforced_witness :
    5 ≤ channelCount
        [("g", [("c", [{ type := NotifType.addonUpdate, id := "1", lastUpdated := none },
          { type := NotifType.addonUpdate, id := "2", lastUpdated := none },
          { type := NotifType.addonUpdate, id := "3", lastUpdated := none },
          { type := NotifType.addonUpdate, id := "4", lastUpdated := none },
          { type := NotifType.addonUpdate, id := "5", lastUpdated := none }])])]
        "g" "c" NotifType.addonUpdate
    ∧ ((executeAddAddon
        { hasPermission := true, id := some "6", fetchOk := true, fetchValid := true,
          collFetchOk := true, collFetchValid := true, guildId := "g", channelId := "c",
          confirmed := true }
        [("g", [("c", [{ type := NotifType.addonUpdate, id := "1", lastUpdated := none },
          { type := NotifType.addonUpdate, id := "2", lastUpdated := none },
          { type := NotifType.addonUpdate, id := "3", lastUpdated := none },
          { type := NotifType.addonUpdate, id := "4", lastUpdated := none },
          { type := NotifType.addonUpdate, id := "5", lastUpdated := none }])])]).2
      = [("g", [("c", [{ type := NotifType.addonUpdate, id := "1", lastUpdated := none },
          { type := NotifType.addonUpdate, id := "2", lastUpdated := none },
          { type := NotifType.addonUpdate, id := "3", lastUpdated := none },
          { type := NotifType.addonUpdate, id := "4", lastUpdated := none },
          { type := NotifType.addonUpdate, id := "5", lastUpdated := none }])])]
      ∧ CmdEvent.storeMutation ∉ (executeAddAddon
        { hasPermission := true, id := some "6", fetchOk := true, fetchValid := true,
          collFetchOk := true, collFetchValid := true, guildId := "g", channelId := "c",
          confirmed := true }
        [("g", [("c", [{ type := NotifType.addonUpdate, id := "1", lastUpdated := none },
          { type := NotifType.addonUpdate, id := "2", lastUpdated := none },
          { type := NotifType.addonUpdate, id := "3", lastUpdated := none },
          { type := NotifType.addonUpdate, id := "4", lastUpdated := none },
          { type := NotifType.addonUpdate, id := "5", lastUpdated := none }])])]).1)
    ∧ 3 ≤ channelCount
        [("g", [("c", [{ type := NotifType.collectionUpdate, id := "1", lastUpdated := none },
          { type := NotifType.collectionUpdate, id := "2", lastUpdated := none },
          { type := NotifType.collectionUpdate, id := "3", lastUpdated := none }])])]
        "g" "c" NotifType.collectionUpdate
    ∧ ((executeAddCollection
        { hasPermission := true, id := some "4", fetchOk := true, fetchValid := true,
          collFetchOk := true, collFetchValid := true, guildId := "g", channelId := "c",
          confirmed := true }
        [("g", [("c", [{ type := NotifType.collectionUpdate, id := "1", lastUpdated := none },
          { type := NotifType.collectionUpdate, id := "2", lastUpdated := none },
          { type := NotifType.collectionUpdate, id := "3", lastUpdated := none }])])]).2
      = [("g", [("c", [{ type := NotifType.collectionUpdate, id := "1", lastUpdated := none },
          { type := NotifType.collectionUpdate, id := "2", lastUpdated := none },
          { type := NotifType.collectionUpdate, id := "3", lastUpdated := none }])])]
      ∧ CmdEvent.storeMutation ∉ (executeAddCollection
        { hasPermission := true, id := some "4", fetchOk := true, fetchValid := true,
          collFetchOk := true, collFetchValid := true, guildId := "g", channelId := "c",
          confirmed := true }
        [("g", [("c", [{ type := NotifType.collectionUpdate, id := "1", lastUpdated := none },
          { type := NotifType.collectionUpdate, id := "2", lastUpdated := none },
          { type := NotifType.collectionUpdate, id := "3", lastUpdated := none }])])]).1)
    ∧ channelCount [] "g" "c" NotifType.addonUpdate ≤ 5
    ∧ channelCount [] "g" "c" NotifType.collectionUpdate ≤ 3 :=
  ⟨by decide,
    capacity_enforced.1
      { hasPermission := true, id := some "6", fetchOk := true, fetchValid := true,
        collFetchOk := true, collFetchValid := true, guildId := "g", channelId := "c",
        confirmed := true } _ (by decide),
    by decide,
    capacity_enforced.2.1
      { hasPermission := true, id := some "4", fetchOk := true, fetchValid := true,
        collFetchOk := true, collFetchValid := true, guildId := "g", channelId := "c",
        confirmed := true } _ (by decide),
    (capacity_enforced.2.2 [] Reachable.empty "g" "c").1,
    (capacity_enforced.2.2 [] Reachable.empty "g" "c").2⟩
